import Mathlib

/-!
Verification of the FE-notifier seat watcher (main.py, watch.py,
seat_watcher_ipa.py): a shallow embedding of the pure computations of the
scripts — month-label parsing and eligibility filtering, day-option
filtering, target-center list parsing, table-row matching and slot-record
extraction, the login / area-date gate predicates, the selector fallback
loop and the run summary — together with theorems checking the
natural-language specification against them.  Browser interactions are
modelled by the data they hand the pure code (option labels, row contents,
element counts); Python exceptions raised by the scripts are modelled as
`Except` error values, GitHub-Actions annotations as a `Mark` list.
-/

namespace FEWatcher

/-- A PASS / WARN / FAIL annotation as printed by `pass_mark`, `warn_mark`
and `fail_mark` (each takes a step title and a detail string). -/
inductive Mark where
  | pass (step detail : String)
  | warn (step detail : String)
  | fail (step detail : String)
deriving DecidableEq, Repr

/-- Whitespace as Python's `str.strip` and the regex class `\s` see it
(Unicode whitespace; the source labels only ever use the ASCII part and
the ideographic space). -/
def isPySpace (c : Char) : Bool :=
  c == ' ' || c == '\t' || c == '\n' || c == '\r' || c == '\x0b' || c == '\x0c' ||
  c == '\x1c' || c == '\x1d' || c == '\x1e' || c == '\x1f' || c == '\x85' ||
  c == '\xa0' || c == ' ' ||
  (decide (' ' ≤ c) && decide (c ≤ ' ')) ||
  c == ' ' || c == ' ' || c == ' ' || c == ' ' || c == '　'

/-- Python `str.strip()`: drop leading and trailing whitespace. -/
def pyStrip (s : String) : String :=
  ⟨((s.data.dropWhile isPySpace).reverse.dropWhile isPySpace).reverse⟩

/-- The regex class `\d` on the ASCII digits the site's labels use. -/
def isPyDigit (c : Char) : Bool :=
  decide ('0' ≤ c) && decide (c ≤ '9')

/-- Numeric value of an ASCII digit. -/
def dval (c : Char) : Nat := c.toNat - '0'.toNat

/-- `needle.isPrefixOf hay` on character lists. -/
def charsPrefixOf : List Char → List Char → Bool
  | [], _ => true
  | _ :: _, [] => false
  | a :: as, b :: bs => a == b && charsPrefixOf as bs

/-- Needle occurs at some position of the haystack (helper for Python's
substring test). -/
def listContainsSub (needle : List Char) : List Char → Bool
  | [] => charsPrefixOf needle []
  | c :: t => charsPrefixOf needle (c :: t) || listContainsSub needle t

/-- Python's `needle in hay` substring test on strings. -/
def strContains (hay needle : String) : Bool :=
  listContainsSub needle.data hay.data

/-- The `\d{1,2}月` tail of the month regex at the current position, with
the regex engine's greedy backtracking: try two digits then `月`, fall
back to one digit then `月`. -/
def monthNumAt : List Char → Option Nat
  | m1 :: m2 :: rest =>
    if isPyDigit m1 then
      if isPyDigit m2 then
        match rest with
        | '月' :: _ => some (10 * dval m1 + dval m2)
        | _ => none
      else if m2 == '月' then some (dval m1) else none
    else none
  | _ => none

/-- The pattern `(\d{4})年\s*(\d{1,2})月` anchored at the current
position (`\s*` is maximal-munch here because `\s` and `\d` are disjoint). -/
def matchAt : List Char → Option (Nat × Nat)
  | d1 :: d2 :: d3 :: d4 :: y :: rest =>
    if isPyDigit d1 && isPyDigit d2 && isPyDigit d3 && isPyDigit d4 && (y == '年') then
      match monthNumAt (rest.dropWhile isPySpace) with
      | some m => some (1000 * dval d1 + 100 * dval d2 + 10 * dval d3 + dval d4, m)
      | none => none
    else none
  | _ => none

/-- `re.search`: try the pattern at each position, leftmost first. -/
def searchMonth : List Char → Option (Nat × Nat)
  | [] => none
  | c :: rest =>
    match matchAt (c :: rest) with
    | some r => some r
    | none => searchMonth rest

/-- `parse_month_label` (watch.py 91-93, main.py 103-105):
`re.search(r"(\d{4})年\s*(\d{1,2})月", lb)`, returning the year and month
as numbers when the pattern occurs in the label. -/
def parse_month_label (lb : String) : Option (Nat × Nat) :=
  searchMonth lb.data

/-- One iteration of the month-option loop (watch.py 220-226,
main.py 303-306): parse the label; keep it when it parses and is at or
after the start month. -/
def monthStep (sy sm : Nat) (acc : List String) (lb : String) : List String :=
  match parse_month_label lb with
  | none => acc
  | some (y, m) => if sy < y ∨ (y = sy ∧ sm ≤ m) then acc ++ [lb] else acc

/-- The `month_opts` loop of watch.py 219-226 (identically the
`ym_labels` loop of main.py 302-306) over the already-read option
labels. -/
def eligibleMonths (labels : List String) (sy sm : Nat) : List String :=
  labels.foldl (monthStep sy sm) []

/-- The predicate the month loop keeps a label by: it parses and lies at
or after the start month. -/
def monthEligible (sy sm : Nat) (lb : String) : Bool :=
  match parse_month_label lb with
  | none => false
  | some (y, m) => decide (sy < y ∨ (y = sy ∧ sm ≤ m))

theorem eligibleMonths_foldl (sy sm : Nat) (labels : List String) (acc : List String) :
    labels.foldl (monthStep sy sm) acc = acc ++ labels.filter (monthEligible sy sm) := by
  induction labels generalizing acc with
  | nil => simp
  | cons lb rest ih =>
    rw [List.foldl_cons, ih, List.filter_cons]
    unfold monthStep monthEligible
    cases hp : parse_month_label lb with
    | none => simp
    | some ym =>
      obtain ⟨y, m⟩ := ym
      by_cases hc : sy < y ∨ (y = sy ∧ sm ≤ m) <;> simp [hc]

/-- C1: month eligibility filtering.  The month loop keeps exactly the
labels in which the pattern `<year>年<month>月` occurs with year after the
start year, or the start year and month at or after the start month;
unparseable labels (such as a placeholder) are dropped and source order is
preserved — the loop equals `List.filter` of the eligibility predicate.
For start month 2025-11, `2025年10月` is excluded while `2025年11月` and
`2025年12月` are kept in that relative order. -/
theorem month_eligibility_filtering (labels : List String) (sy sm : Nat) :
    eligibleMonths labels sy sm = labels.filter (monthEligible sy sm)
    ∧ eligibleMonths ["選択してください", "2025年10月", "2025年11月", "2025年12月"] 2025 11
        = ["2025年11月", "2025年12月"] := by
  constructor
  · simpa using eligibleMonths_foldl sy sm labels []
  · decide

/-- One iteration of the day-option loop (watch.py 231-235): skip an
option whose stripped label contains `選択` or is empty, otherwise keep
its original index together with the label. -/
def dayStep (acc : List (Nat × String)) (p : Nat × String) : List (Nat × String) :=
  if strContains p.2 "選択" || p.2 == "" then acc else acc ++ [p]

/-- The `day_opts` loop of watch.py 230-235 over the enumerated option
labels (index paired with already-stripped label). -/
def dayOptions (labels : List String) : List (Nat × String) :=
  labels.enum.foldl dayStep []

/-- The predicate the day loop keeps an option by. -/
def dayKept (lb : String) : Bool :=
  !(strContains lb "選択" || lb == "")

/-- The `dt_opts` comprehension of main.py 298 over (value, label)
options: keep options whose label is non-empty and free of `選択`. -/
def dayOptionsMain (opts : List (String × String)) : List (String × String) :=
  opts.filter (fun o => o.2 != "" && !strContains o.2 "選択")

theorem dayOptions_foldl (labels : List (Nat × String)) (acc : List (Nat × String)) :
    labels.foldl dayStep acc = acc ++ labels.filter (fun p => dayKept p.2) := by
  induction labels generalizing acc with
  | nil => simp
  | cons p rest ih =>
    rw [List.foldl_cons, ih, List.filter_cons]
    unfold dayStep dayKept
    by_cases hc : (strContains p.2 "選択" || p.2 == "") = true
    · simp [hc]
    · simp only [hc, if_neg] at *
      simp [hc]

/-- C5: day-option filtering.  The day loop keeps exactly the options
whose label is non-empty and free of the placeholder marker `選択`,
preserving source order and the original option index for re-selection;
on `["", "1日〜10日", "選択してください", "11日〜20日"]` it keeps exactly
`1日〜10日` (index 1) and `11日〜20日` (index 3) in that order.  The same
holds of the value-keyed variant of main.py. -/
theorem day_option_filtering (labels : List String) (opts : List (String × String)) :
    dayOptions labels = labels.enum.filter (fun p => dayKept p.2)
    ∧ dayOptionsMain opts = opts.filter (fun o => o.2 != "" && !strContains o.2 "選択")
    ∧ dayOptions ["", "1日〜10日", "選択してください", "11日〜20日"]
        = [(1, "1日〜10日"), (3, "11日〜20日")]
    ∧ (dayOptions ["", "1日〜10日", "選択してください", "11日〜20日"]).map Prod.snd
        = ["1日〜10日", "11日〜20日"] := by
  refine ⟨?_, rfl, by decide, by decide⟩
  simpa using dayOptions_foldl labels.enum []

/-- Python's `str.split(",")`: cut at every comma, keeping empty fields
(`"".split(",") = [""]`). -/
def splitComma : List Char → List String
  | [] => [""]
  | c :: t =>
    if c == ',' then "" :: splitComma t
    else match splitComma t with
      | [] => [⟨[c]⟩]
      | h :: r => ⟨c :: h.data⟩ :: r

/-- `TARGET_CENTERS` parsing (watch.py 35-38, main.py 34-37,
seat_watcher_ipa.py 26-29): split the configured string on commas, strip
each entry, drop entries that are empty after stripping. -/
def parseTargets (s : String) : List String :=
  ((splitComma s.data).filter (fun t => pyStrip t != "")).map pyStrip

theorem strContains_empty_needle (hay : String) : strContains hay "" = true := by
  unfold strContains
  cases hay.data <;> rfl

/-- C10: target-list parsing never yields empty names.  Every kept entry
is stripped and non-empty, so the parsed target list never contains the
empty string; an all-empty or comma-only configuration yields the empty
list.  (The final conjunct shows why this matters: the empty string is a
substring of every row name, so a list containing it would match every
row.) -/
theorem target_parsing_no_empty (s : String) :
    (parseTargets s).all (fun t => t != "") = true
    ∧ (parseTargets s).contains "" = false
    ∧ parseTargets "" = []
    ∧ parseTargets ", ,  ," = []
    ∧ parseTargets " 那覇テストセンター ,,OAC沖縄校テストセンター" =
        ["那覇テストセンター", "OAC沖縄校テストセンター"]
    ∧ (∀ name : String, strContains name "" = true) := by
  have hall : (parseTargets s).all (fun t => t != "") = true := by
    rw [List.all_eq_true]
    intro t ht
    obtain ⟨u, hu, rfl⟩ := List.mem_map.1 ht
    exact (List.mem_filter.1 hu).2
  refine ⟨hall, ?_, by decide, by decide, by decide, strContains_empty_needle⟩
  rw [List.contains, List.elem_eq_mem, decide_eq_false_iff_not]
  intro hmem
  have := List.all_eq_true.1 hall "" hmem
  simp at this

/-- HTML element kinds the row scanner distinguishes: anchors, buttons,
table cells, anything else. -/
inductive Tag where
  | a
  | button
  | td
  | other
deriving DecidableEq, BEq, Repr

/-- An element of a results-table row as the scanner reads it: its tag,
its inner text, and its `href` attribute when it has one. -/
structure Elem where
  tag : Tag
  text : String
  href : Option String
deriving DecidableEq, Repr

/-- A results-table row: its elements in document order. -/
structure Row where
  elems : List Elem
deriving DecidableEq, Repr

/-- First element of the row with the given tag (`locator(...).first`). -/
def firstWithTag (r : Row) (t : Tag) : Option Elem :=
  r.elems.find? (fun e => e.tag == t)

/-- Display-name extraction (main.py 333-338, watch.py 262-267): the
stripped text of the row's first anchor, else of its first cell, else
empty (the code turns a missing-cell exception into the empty name). -/
def rowName (r : Row) : String :=
  match firstWithTag r Tag.a with
  | some e => pyStrip e.text
  | none =>
    match firstWithTag r Tag.td with
    | some e => pyStrip e.text
    | none => ""

/-- The row-matching test (main.py 339, watch.py 268): non-empty name
containing some configured target center as a substring. -/
def rowMatched (targets : List String) (r : Row) : Bool :=
  rowName r != "" && targets.any (fun c => strContains (rowName r) c)

/-- An element the marker locator
`a:has-text('○'), button:has-text('○'), td:has-text('○')` selects: an
anchor, button or cell whose text contains the glyph `○` (Playwright's
`has-text` is substring matching). -/
def isMarkerElem (e : Elem) : Bool :=
  (e.tag == Tag.a || e.tag == Tag.button || e.tag == Tag.td) && strContains e.text "○"

/-- All availability-marker elements of a row, in document order
(main.py 342, watch.py 274). -/
def rowMarkers (r : Row) : List Elem :=
  r.elems.filter isMarkerElem

/-- One result line (main.py 346-352, watch.py 280-287):
`<name> | <month> | <day> | <stripped marker text>`, with
` | <href>` appended when the marker has a non-empty `href` (a missing
attribute is read as the empty string). -/
def mkLine (name month day : String) (e : Elem) : String :=
  let t := pyStrip e.text
  let href := e.href.getD ""
  let line := name ++ " | " ++ month ++ " | " ++ day ++ " | " ++ t
  if href != "" then line ++ " | " ++ href else line

/-- The body of the row loop of `extract_table_slots` (main.py 331-354,
watch.py 259-288) for one row: the result lines appended to
`found_lines`, the marks printed, and the increment of the `matched`
counter. -/
def scanRow (targets : List String) (month day : String) (r : Row) :
    List String × List Mark × Nat :=
  let name := rowName r
  if rowMatched targets r then
    let cells := rowMarkers r
    if cells.length = 0 then
      ([], [Mark.pass "会場一致" name, Mark.warn "枠抽出" (name ++ ": 0件")], 1)
    else
      (cells.map (mkLine name month day),
       [Mark.pass "会場一致" name,
        Mark.pass "枠抽出" (name ++ ": " ++ toString cells.length ++ "件")], 1)
  else ([], [], 0)

/-- `extract_table_slots` (main.py 326-355) over the rows of the first
table: the accumulated result lines and marks.  An empty row set warns
`rows=0` and extracts nothing; a pass with no matched row warns about
possible naming mismatch. -/
def extract_table_slots (targets : List String) (month day : String) (rows : List Row) :
    List String × List Mark :=
  if rows.isEmpty then ([], [Mark.warn "会場表" "rows=0"])
  else
    let st := rows.foldl
      (fun (st : List String × List Mark × Nat) (r : Row) =>
        let out := scanRow targets month day r
        (st.1 ++ out.1, st.2.1 ++ out.2.1, st.2.2 + out.2.2))
      ([], [], 0)
    if st.2.2 = 0 then
      (st.1, st.2.1 ++ [Mark.warn "会場一致" "指定会場ヒットなし（表記ぶれの可能性）"])
    else (st.1, st.2.1)

theorem extract_foldl_lines (targets : List String) (month day : String)
    (rows : List Row) (st : List String × List Mark × Nat) :
    (rows.foldl
      (fun (st : List String × List Mark × Nat) (r : Row) =>
        let out := scanRow targets month day r
        (st.1 ++ out.1, st.2.1 ++ out.2.1, st.2.2 + out.2.2))
      st).1
      = st.1 ++ rows.foldr (fun r acc => (scanRow targets month day r).1 ++ acc) [] := by
  induction rows generalizing st with
  | nil => simp
  | cons r rest ih => rw [List.foldl_cons, ih, List.foldr_cons, List.append_assoc]

/-- Per-row lines of a whole table pass: `extract_table_slots` emits
exactly the concatenation, in row order, of each row's `scanRow` lines. -/
theorem extract_table_slots_lines (targets : List String) (month day : String)
    (rows : List Row) :
    (extract_table_slots targets month day rows).1
      = rows.foldr (fun r acc => (scanRow targets month day r).1 ++ acc) [] := by
  unfold extract_table_slots
  by_cases h : rows.isEmpty
  · rw [if_pos h]
    rw [List.isEmpty_iff] at h
    subst h
    rfl
  · rw [if_neg h]
    have := extract_foldl_lines targets month day rows ([], [], 0)
    by_cases hm : (rows.foldl
      (fun (st : List String × List Mark × Nat) (r : Row) =>
        let out := scanRow targets month day r
        (st.1 ++ out.1, st.2.1 ++ out.2.1, st.2.2 + out.2.2))
      ([], [], 0)).2.2 = 0 <;> simp [hm, this]

/-- C2: row-matching invariant.  A row whose extracted display name
contains no configured target center as a substring is skipped outright:
it produces no result line, no mark, and no increment of the matched
counter.  (Contrapositive: a result line is only ever produced for a row
whose name contains at least one target.) -/
theorem row_matching_invariant (targets : List String) (month day : String) (r : Row)
    (h : targets.all (fun c => !strContains (rowName r) c) = true) :
    scanRow targets month day r = ([], [], 0) := by
  have hany : targets.any (fun c => strContains (rowName r) c) = false := by
    rw [List.any_eq_false]
    intro c hc
    have := List.all_eq_true.1 h c hc
    simpa using this
  unfold scanRow rowMatched
  rw [hany]
  simp

/-- Witness for C2: a row named `東京テストセンター` (carrying an
availability marker) against the default Okinawa target list produces
nothing. -/
theorem row_matching_invariant_witness :
    scanRow ["沖縄県庁前テストセンター", "那覇テストセンター", "OAC沖縄校テストセンター"]
        "2025年11月" "1日〜10日"
        ⟨[⟨Tag.td, "東京テストセンター", none⟩, ⟨Tag.td, "○", none⟩]⟩
      = ([], [], 0) :=
  row_matching_invariant _ _ _ _ (by decide)

/-- Modelled from the spec's words for comparison with the code's marker
locator: "elements whose text is exactly the availability glyph, or
link/button elements rendered as that glyph" — an element whose whole
text is `○`, or an anchor/button whose text renders the glyph. -/
def specAvailMarkers (r : Row) : List Elem :=
  r.elems.filter
    (fun e => e.text == "○" ||
      ((e.tag == Tag.a || e.tag == Tag.button) && strContains e.text "○"))

/-- Counterexample to C4 as stated: in the row
`[td "那覇テストセンター", td "10:00 ○"]` no element's text is exactly
`○` and there is no link/button glyph, so the claim's marker set is empty
and it predicts a WARN and no record for this matched row; the code's
substring locator `td:has-text('○')` selects the second cell and one
record is appended. -/
theorem slot_marker_counterexample :
    specAvailMarkers ⟨[⟨Tag.td, "那覇テストセンター", none⟩, ⟨Tag.td, "10:00 ○", none⟩]⟩ = []
    ∧ (scanRow ["那覇テストセンター"] "2025年11月" "1日〜10日"
        ⟨[⟨Tag.td, "那覇テストセンター", none⟩, ⟨Tag.td, "10:00 ○", none⟩]⟩).1
        = ["那覇テストセンター | 2025年11月 | 1日〜10日 | 10:00 ○"]
    ∧ (rowMarkers ⟨[⟨Tag.td, "那覇テストセンター", none⟩, ⟨Tag.td, "10:00 ○", none⟩]⟩).length
        ≠ (specAvailMarkers
            ⟨[⟨Tag.td, "那覇テストセンター", none⟩, ⟨Tag.td, "10:00 ○", none⟩]⟩).length := by
  refine ⟨by decide, by decide, by decide⟩

/-- C4 (amended): marker extraction per matched row.  The markers are the
row elements the locator selects — anchors, buttons or table cells whose
text contains the glyph `○` (substring, not exact, match) — and the
scanner appends exactly one record per marker, each line carrying the
row's display name, the iteration's month and day labels, the marker's
stripped text and its href when present (`mkLine`); N markers yield
exactly N records, and a matched row with zero markers yields a WARN and
no record. -/
theorem slot_marker_extraction (targets : List String) (month day : String) (r : Row)
    (h : rowMatched targets r = true) :
    (scanRow targets month day r).1 = (rowMarkers r).map (mkLine (rowName r) month day)
    ∧ (scanRow targets month day r).1.length = (rowMarkers r).length
    ∧ (rowMarkers r = [] →
        (scanRow targets month day r).1 = []
        ∧ Mark.warn "枠抽出" (rowName r ++ ": 0件") ∈ (scanRow targets month day r).2.1)
    ∧ (rowMarkers r ≠ [] →
        Mark.pass "枠抽出" (rowName r ++ ": " ++ toString (rowMarkers r).length ++ "件")
          ∈ (scanRow targets month day r).2.1) := by
  unfold scanRow
  rw [if_pos h]
  by_cases hlen : (rowMarkers r).length = 0
  · have hnil : rowMarkers r = [] := List.length_eq_zero.1 hlen
    rw [if_pos hlen]
    refine ⟨by rw [hnil]; rfl, by rw [hnil]; rfl, fun _ => ⟨rfl, by simp⟩, fun hne => ?_⟩
    exact absurd hnil hne
  · rw [if_neg hlen]
    refine ⟨rfl, by rw [List.length_map], fun hnil => ?_, fun _ => by simp⟩
    exact absurd hnil (fun hn => hlen (by rw [hn]; rfl))

/-- The two-marker fixture of the spec's testable property: one matched
row whose name anchor is followed by two `○` slot anchors. -/
def twoMarkerRow : Row :=
  ⟨[⟨Tag.a, "那覇テストセンター", some "/center/1"⟩,
    ⟨Tag.a, "○", some "/slot/1"⟩,
    ⟨Tag.a, "○", some "/slot/2"⟩]⟩

/-- Witness for C4: on the two-marker row the scanner appends exactly the
two per-marker lines. -/
theorem slot_marker_extraction_witness :
    (scanRow ["那覇テストセンター"] "2025年11月" "1日〜15日" twoMarkerRow).1
      = (rowMarkers twoMarkerRow).map (mkLine (rowName twoMarkerRow) "2025年11月" "1日〜15日")
    ∧ (scanRow ["那覇テストセンター"] "2025年11月" "1日〜15日" twoMarkerRow).1.length
      = (rowMarkers twoMarkerRow).length
    ∧ (rowMarkers twoMarkerRow = [] →
        (scanRow ["那覇テストセンター"] "2025年11月" "1日〜15日" twoMarkerRow).1 = []
        ∧ Mark.warn "枠抽出" (rowName twoMarkerRow ++ ": 0件")
            ∈ (scanRow ["那覇テストセンター"] "2025年11月" "1日〜15日" twoMarkerRow).2.1)
    ∧ (rowMarkers twoMarkerRow ≠ [] →
        Mark.pass "枠抽出"
            (rowName twoMarkerRow ++ ": " ++ toString (rowMarkers twoMarkerRow).length ++ "件")
          ∈ (scanRow ["那覇テストセンター"] "2025年11月" "1日〜15日" twoMarkerRow).2.1) :=
  slot_marker_extraction ["那覇テストセンター"] "2025年11月" "1日〜15日" twoMarkerRow (by decide)

/-- What one selector candidate does when `fill_any` reaches it: no
element matches it (`loc.count()` is 0), the fill attempt raises, or the
fill succeeds. -/
inductive CandOutcome where
  | missing
  | errors (msg : String)
  | succeeds
deriving DecidableEq, Repr

/-- What a `fill_any` run produces: the returned value (`Except.error`
models the `RuntimeError` raised on exhaustion), the marks printed, and
the selectors whose fill was actually attempted, in order. -/
structure ResolveOut where
  result : Except String Bool
  marks : List Mark
  attempted : List String
deriving Repr

/-- `fill_any` (main.py 72-85) over the candidate selectors, each paired
with how the driver responds to it: skip a selector matching nothing, on
a fill error warn and continue, on a fill success report PASS and return
True at once; when the candidates run out, report FAIL and raise. -/
def fill_any (step : String) : List (String × CandOutcome) → ResolveOut
  | [] => ⟨Except.error (step ++ " 失敗"), [Mark.fail step (step ++ " 候補全滅")], []⟩
  | (_, CandOutcome.missing) :: rest => fill_any step rest
  | (sel, CandOutcome.succeeds) :: _ =>
      ⟨Except.ok true, [Mark.pass step (sel ++ " で入力")], [sel]⟩
  | (sel, CandOutcome.errors e) :: rest =>
      let out := fill_any step rest
      ⟨out.result, Mark.warn step (sel ++ " 失敗: " ++ e) :: out.marks, sel :: out.attempted⟩

/-- The WARN marks a candidate prefix of erroring/missing selectors
contributes. -/
def warnMarksOf (step : String) (cands : List (String × CandOutcome)) : List Mark :=
  cands.filterMap (fun c =>
    match c.2 with
    | CandOutcome.errors e => some (Mark.warn step (c.1 ++ " 失敗: " ++ e))
    | _ => none)

/-- The selectors of a candidate list whose fill is attempted when none
of them succeeds (the erroring ones; missing ones are skipped). -/
def attemptedOf (cands : List (String × CandOutcome)) : List String :=
  cands.filterMap (fun c =>
    match c.2 with
    | CandOutcome.errors _ => some c.1
    | _ => none)

theorem fill_any_no_success (step : String) (cands : List (String × CandOutcome))
    (h : ∀ c ∈ cands, c.2 ≠ CandOutcome.succeeds) :
    fill_any step cands =
      ⟨Except.error (step ++ " 失敗"),
       warnMarksOf step cands ++ [Mark.fail step (step ++ " 候補全滅")],
       attemptedOf cands⟩ := by
  induction cands with
  | nil => rfl
  | cons c rest ih =>
    obtain ⟨sel, o⟩ := c
    have hrest : ∀ c ∈ rest, c.2 ≠ CandOutcome.succeeds :=
      fun c hc => h c (List.mem_cons_of_mem _ hc)
    cases o with
    | missing => simpa [fill_any, warnMarksOf, attemptedOf] using ih hrest
    | errors e => simp [fill_any, warnMarksOf, attemptedOf, ih hrest]
    | succeeds => exact absurd rfl (h (sel, CandOutcome.succeeds) (List.mem_cons_self _ _))

theorem fill_any_first_success (step sel : String)
    (pre post : List (String × CandOutcome))
    (h : ∀ c ∈ pre, c.2 ≠ CandOutcome.succeeds) :
    fill_any step (pre ++ (sel, CandOutcome.succeeds) :: post) =
      ⟨Except.ok true,
       warnMarksOf step pre ++ [Mark.pass step (sel ++ " で入力")],
       attemptedOf pre ++ [sel]⟩ := by
  induction pre with
  | nil => rfl
  | cons c rest ih =>
    obtain ⟨s, o⟩ := c
    have hrest : ∀ c ∈ rest, c.2 ≠ CandOutcome.succeeds :=
      fun c hc => h c (List.mem_cons_of_mem _ hc)
    cases o with
    | missing => simpa [fill_any, warnMarksOf, attemptedOf] using ih hrest
    | errors e => simp [fill_any, warnMarksOf, attemptedOf, ih hrest]
    | succeeds => exact absurd rfl (h (s, CandOutcome.succeeds) (List.mem_cons_self _ _))

/-- C3: SelectorResolver contract.  `fill_any` tries the candidates in
order: the first candidate whose fill succeeds yields `Except.ok true`,
with no later candidate's fill ever attempted (its `attempted` trace is
exactly the erroring candidates before the success, then the succeeding
selector); an erroring candidate contributes a WARN and resolution
continues; and when every candidate is exhausted without a success the
resolver reports FAIL and returns the resolution failure
(`Except.error`) for the caller to handle. -/
theorem selector_resolver_contract (step sel : String)
    (pre post : List (String × CandOutcome))
    (h : ∀ c ∈ pre, c.2 ≠ CandOutcome.succeeds) :
    fill_any step (pre ++ (sel, CandOutcome.succeeds) :: post) =
      ⟨Except.ok true,
       warnMarksOf step pre ++ [Mark.pass step (sel ++ " で入力")],
       attemptedOf pre ++ [sel]⟩
    ∧ fill_any step pre =
      ⟨Except.error (step ++ " 失敗"),
       warnMarksOf step pre ++ [Mark.fail step (step ++ " 候補全滅")],
       attemptedOf pre⟩ :=
  ⟨fill_any_first_success step sel pre post h, fill_any_no_success step pre h⟩

/-- Witness for C3: the ID-input candidate chain with one missing and one
erroring selector before the succeeding one, and one more candidate after
it that is never attempted. -/
theorem selector_resolver_contract_witness :
    fill_any "ID入力"
        [("input[name='loginId']", CandOutcome.missing),
         ("#loginId", CandOutcome.errors "timeout"),
         ("input[autocomplete='username']", CandOutcome.succeeds),
         ("input[type='text']", CandOutcome.succeeds)] =
      ⟨Except.ok true,
       warnMarksOf "ID入力"
         [("input[name='loginId']", CandOutcome.missing),
          ("#loginId", CandOutcome.errors "timeout")]
         ++ [Mark.pass "ID入力" ("input[autocomplete='username']" ++ " で入力")],
       attemptedOf
         [("input[name='loginId']", CandOutcome.missing),
          ("#loginId", CandOutcome.errors "timeout")]
         ++ ["input[autocomplete='username']"]⟩
    ∧ fill_any "ID入力"
        [("input[name='loginId']", CandOutcome.missing),
         ("#loginId", CandOutcome.errors "timeout")] =
      ⟨Except.error ("ID入力" ++ " 失敗"),
       warnMarksOf "ID入力"
         [("input[name='loginId']", CandOutcome.missing),
          ("#loginId", CandOutcome.errors "timeout")]
         ++ [Mark.fail "ID入力" ("ID入力" ++ " 候補全滅")],
       attemptedOf
         [("input[name='loginId']", CandOutcome.missing),
          ("#loginId", CandOutcome.errors "timeout")]⟩ :=
  selector_resolver_contract "ID入力" "input[autocomplete='username']"
    [("input[name='loginId']", CandOutcome.missing),
     ("#loginId", CandOutcome.errors "timeout")]
    [("input[type='text']", CandOutcome.succeeds)]
    (by decide)

/-- `check` (main.py 51-57, watch.py 64-70, seat_watcher_ipa.py 92-98):
PASS on a true condition, FAIL otherwise; a failed critical check raises
`RuntimeError(f"{step} 失敗: {ng}")`, modelled as the `Option String`
component. -/
def check (cond : Bool) (step okMsg ngMsg : String) (critical : Bool) :
    List Mark × Option String :=
  if cond then ([Mark.pass step okMsg], none)
  else ([Mark.fail step ngMsg], if critical then some (step ++ " 失敗: " ++ ngMsg) else none)

/-- The page state the post-login checks read: how many identifier input
fields and how many logout links/buttons the page currently shows. -/
structure LoginPage where
  userFieldCount : Nat
  logoutCount : Nat
deriving DecidableEq, Repr

/-- The post-login gate of main.py 268-269: success iff a logout
link/button is present; critical. -/
def mainLoginGate (p : LoginPage) : List Mark × Option String :=
  check (decide (0 < p.logoutCount)) "ログイン" "成功" "失敗の可能性" true

/-- The post-login gate of watch.py 131-132: success iff the 利用者ID
field has disappeared; critical. -/
def watchLoginGate (p : LoginPage) : List Mark × Option String :=
  check (p.userFieldCount == 0) "ログイン" "成功" "失敗の可能性" true

/-- The post-login gate of seat_watcher_ipa.py 159-162: success iff the
login form's user field has disappeared; critical. -/
def ipaLoginGate (p : LoginPage) : List Mark × Option String :=
  check (p.userFieldCount == 0) "ログイン"
    "ログイン成功っぽい（フォーム消失）" "ログインに失敗した可能性" true

/-- Modelled from the spec's words for comparison with the code's login
gates: login is successful if the identifier field is no longer present
or a logged-out control is now present — either predicate alone being
acceptable evidence. -/
def specLoginSuccess (p : LoginPage) : Bool :=
  p.userFieldCount == 0 || decide (0 < p.logoutCount)

/-- Counterexample to C6 as stated: on a page whose identifier field has
disappeared but which shows no logout control, the spec's disjunction
accepts the login (identifier-absent alone is acceptable evidence), yet
main.py's gate — which tests only the logout control — aborts the run as
fatal; symmetrically, on a page that still shows the identifier field but
does show a logout control, watch.py's gate — which tests only the
identifier field — aborts although the spec's disjunction accepts. -/
theorem login_verification_counterexample :
    specLoginSuccess ⟨0, 0⟩ = true
    ∧ (mainLoginGate ⟨0, 0⟩).2 = some "ログイン 失敗: 失敗の可能性"
    ∧ specLoginSuccess ⟨1, 1⟩ = true
    ∧ (watchLoginGate ⟨1, 1⟩).2 = some "ログイン 失敗: 失敗の可能性"
    ∧ (ipaLoginGate ⟨1, 1⟩).2 = some "ログイン 失敗: ログインに失敗した可能性" := by
  refine ⟨rfl, rfl, rfl, rfl, rfl⟩

/-- C6 (amended): login success verification.  Each variant verifies
login by a single predicate, not the disjunction: main.py treats login as
successful exactly when a logout control is present, while watch.py and
seat_watcher_ipa.py treat it as successful exactly when the identifier
field is no longer present; the run aborts as fatal (critical failure)
exactly when the variant's own predicate fails.  Every state a gate
accepts does satisfy the spec's disjunction (each gate is one of its
disjuncts), but neither disjunct alone is accepted by every variant. -/
theorem login_verification_amended (p : LoginPage) :
    ((mainLoginGate p).2 = none ↔ 0 < p.logoutCount)
    ∧ ((watchLoginGate p).2 = none ↔ p.userFieldCount = 0)
    ∧ ((ipaLoginGate p).2 = none ↔ p.userFieldCount = 0)
    ∧ ((mainLoginGate p).2 = none → specLoginSuccess p = true)
    ∧ ((watchLoginGate p).2 = none → specLoginSuccess p = true) := by
  unfold mainLoginGate watchLoginGate ipaLoginGate check specLoginSuccess
  by_cases hl : 0 < p.logoutCount <;> by_cases hu : p.userFieldCount = 0 <;>
    simp [hl, hu]

/-- The page state `on_area_date` reads: the number of elements carrying
the heading text エリア・日程選択, of region-row selects, of
prefecture-row selects, and of 検索 buttons. -/
structure AreaPage where
  headingCount : Nat
  regionSelectCount : Nat
  prefSelectCount : Nat
  searchButtonCount : Nat
deriving DecidableEq, Repr

/-- `on_area_date` (main.py 167-173): arrival at the area/date page is
the heading being present, or else a region select, a prefecture select
and a search button all existing. -/
def on_area_date (p : AreaPage) : Bool :=
  if p.headingCount ≠ 0 then true
  else
    decide (0 < p.regionSelectCount) && decide (0 < p.prefSelectCount) &&
      decide (0 < p.searchButtonCount)

/-- The final step of `goto_area_date_page` (main.py 229-232): evaluate
`on_area_date`, report PASS or WARN accordingly, and return the boolean
to the caller — the engine itself never raises here. -/
def gotoAreaDateOutcome (p : AreaPage) : Bool × Mark :=
  if on_area_date p then (true, Mark.pass "導線" "手順どおり到達")
  else (false, Mark.warn "導線" "エリア・日程に未到達")

/-- The caller's escalation (main.py 273-274): a critical `check` on the
boolean `goto_area_date_page` returned. -/
def areaDateEscalation (p : AreaPage) : List Mark × Option String :=
  check (gotoAreaDateOutcome p).1 "導線確認" "エリア・日程選択に到達" "ページ到達に失敗" true

/-- C7: area/date-page arrival.  `on_area_date` is exactly the
disjunctive predicate — heading marker present, or (region selector and
prefecture selector and search trigger all exist); when it fails at the
end of the navigation path the engine only reports WARN and returns
false, and it is the top-level caller's critical check that escalates
non-arrival to a fatal abort; when it holds the engine reports PASS and
no abort occurs. -/
theorem area_date_arrival (p : AreaPage) :
    on_area_date p =
      decide (p.headingCount ≠ 0 ∨
        (0 < p.regionSelectCount ∧ 0 < p.prefSelectCount ∧ 0 < p.searchButtonCount))
    ∧ (gotoAreaDateOutcome p).2 =
        (if on_area_date p then Mark.pass "導線" "手順どおり到達"
         else Mark.warn "導線" "エリア・日程に未到達")
    ∧ (gotoAreaDateOutcome p).1 = on_area_date p
    ∧ (areaDateEscalation p).2 =
        (if on_area_date p then none else some "導線確認 失敗: ページ到達に失敗") := by
  refine ⟨?_, ?_, ?_, ?_⟩
  · unfold on_area_date
    by_cases hh : p.headingCount ≠ 0 <;> simp [hh, Bool.and_assoc]
  · unfold gotoAreaDateOutcome
    by_cases ha : on_area_date p <;> simp [ha]
  · unfold gotoAreaDateOutcome
    by_cases ha : on_area_date p <;> simp [ha]
  · unfold areaDateEscalation gotoAreaDateOutcome check
    by_cases ha : on_area_date p <;> simp [ha]

/-- The run summary (main.py 386-394): with a non-empty `found_lines`
report PASS and invoke the notifier with the fixed subject and a body
whose tail lists the accumulated lines one per line; with none, report a
neutral WARN and invoke nothing. -/
def runSummary (region pref startYM : String) (found : List String) :
    List Mark × Option (String × String) :=
  if found.isEmpty then
    ([Mark.warn "実行結果" "空き枠は検出されませんでした"], none)
  else
    ([Mark.pass "実行結果" ("空き枠 " ++ toString found.length ++ "件 検出")],
     some ("【CBTS/IPA】基本情報（沖縄3会場）空き枠を検出しました",
           "対象: 地域=" ++ region ++ " / 都道府県=" ++ pref ++ " / 開始月=" ++ startYM
             ++ "\n\n" ++ String.intercalate "\n" found))

/-- The `__main__` wrapper (main.py 396-402): a run that raised no
exception ends with the success notice and exit code 0; an escaped
exception is re-raised and the process exits non-zero. -/
def jobSummaryExit (fatal : Option String) : Nat :=
  match fatal with
  | none => 0
  | some _ => 1

/-- C8: run summary and notification.  After the loop the notifier is
invoked exactly when the accumulated count is positive, with the fixed
subject and a body listing the accumulated slot lines newline-joined
after the parameter header; each accumulated line is one `mkLine`-format
`<center> | <month> | <day> | <time>[ | <link>]` record of some marker of
a scanned row; with count zero the run emits only a neutral WARN, invokes
no notifier, and the (exception-free) process exits zero. -/
theorem run_summary_notification (region pref startYM : String) (found : List String) :
    (runSummary region pref startYM found).2.isSome = !found.isEmpty
    ∧ (runSummary region pref startYM found).2 =
        (if found.isEmpty then none
         else some ("【CBTS/IPA】基本情報（沖縄3会場）空き枠を検出しました",
            "対象: 地域=" ++ region ++ " / 都道府県=" ++ pref ++ " / 開始月=" ++ startYM
              ++ "\n\n" ++ String.intercalate "\n" found))
    ∧ runSummary region pref startYM [] =
        ([Mark.warn "実行結果" "空き枠は検出されませんでした"], none)
    ∧ jobSummaryExit none = 0
    ∧ (∀ (targets : List String) (month day : String) (r : Row) (line : String),
        line ∈ (scanRow targets month day r).1 →
          ∃ e ∈ rowMarkers r, line = mkLine (rowName r) month day e) := by
  refine ⟨?_, ?_, rfl, rfl, ?_⟩
  · unfold runSummary
    by_cases he : found.isEmpty <;> simp [he]
  · unfold runSummary
    by_cases he : found.isEmpty <;> simp [he]
  · intro targets month day r line hline
    simp only [scanRow] at hline
    by_cases hm : rowMatched targets r
    · rw [if_pos hm] at hline
      by_cases hlen : (rowMarkers r).length = 0
      · rw [if_pos hlen] at hline
        simp at hline
      · rw [if_neg hlen] at hline
        simp only [List.mem_map] at hline
        obtain ⟨e, he, rfl⟩ := hline
        exact ⟨e, he, rfl⟩
    · rw [if_neg hm] at hline
      simp at hline

/-- The process environment: `some v` for a variable set to `v`, `none`
for an unset one (`os.environ.get(name, "")` reads an unset variable as
the empty string). -/
def envGet (env : String → Option String) (name dflt : String) : String :=
  (env name).getD dflt

/-- ASCII lowering, the part of Python's `str.lower()` that can affect
the `truthy` comparison against its lowercase ASCII candidates. -/
def lowerChar (c : Char) : Char :=
  if decide ('A' ≤ c) && decide (c ≤ 'Z') then Char.ofNat (c.toNat + 32) else c

/-- `value.lower()` on the strings `truthy` compares. -/
def pyLower (s : String) : String :=
  ⟨s.data.map lowerChar⟩

/-- `need` (main.py 19-23, watch.py 18-22, seat_watcher_ipa.py 11-15):
an unset-or-empty required variable raises
`SystemExit(f"環境変数 {name} が未設定です")`, modelled as the error
value; otherwise the value is returned. -/
def need (env : String → Option String) (name : String) : Except String String :=
  if envGet env name "" == "" then Except.error ("環境変数 " ++ name ++ " が未設定です")
  else Except.ok (envGet env name "")

/-- `truthy` (main.py 25-26, watch.py 24-25): the lowered value is one of
1/true/yes/on. -/
def truthy (env : String → Option String) (name : String) : Bool :=
  ["1", "true", "yes", "on"].contains (pyLower (envGet env name ""))

/-- Whether a startup computation survived (no `SystemExit`). -/
def isOkE {ε α : Type} : Except ε α → Bool
  | Except.ok _ => true
  | Except.error _ => false

/-- The module-level configuration main.py 28-41 (and identically
watch.py 28-43) evaluates at import time: the two site credentials are
`need`ed; everything else — region, prefecture, start month, target
centers, the notification toggle and the two email credentials — is read
with a default and can never stop startup. -/
structure MainConfig where
  ipaUserId : String
  ipaPassword : String
  regionName : String
  prefName : String
  startYM : String
  targetCenters : List String
  sendEmail : Bool
  gmailAddress : String
  gmailAppPassword : String
deriving Repr

/-- Startup of main.py / watch.py (main.py 28-41). -/
def mainStartup (env : String → Option String) : Except String MainConfig := do
  let uid ← need env "IPA_USER_ID"
  let pw ← need env "IPA_PASSWORD"
  Except.ok
    { ipaUserId := uid
      ipaPassword := pw
      regionName := envGet env "REGION_NAME" "九州・沖縄"
      prefName := envGet env "PREF_NAME" "沖縄県"
      startYM := envGet env "START_YM" "2025-11"
      targetCenters := parseTargets (envGet env "TARGET_CENTERS"
        "沖縄県庁前テストセンター,那覇テストセンター,OAC沖縄校テストセンター")
      sendEmail := truthy env "SEND_EMAIL"
      gmailAddress := envGet env "GMAIL_ADDRESS" ""
      gmailAppPassword := envGet env "GMAIL_APP_PASSWORD" "" }

/-- Startup of seat_watcher_ipa.py 17-20: all four credentials are
`need`ed unconditionally (that variant has no notification toggle). -/
def ipaStartup (env : String → Option String) :
    Except String (String × String × String × String) := do
  let uid ← need env "IPA_USER_ID"
  let pw ← need env "IPA_PASSWORD"
  let ga ← need env "GMAIL_ADDRESS"
  let gp ← need env "GMAIL_APP_PASSWORD"
  Except.ok (uid, pw, ga, gp)

/-- `send_gmail` (main.py 88-101): skip with a WARN when the toggle is
off; with the toggle on but an email credential empty, report FAIL and
return — never raise; otherwise send (the `some` value is the SMTP send
with its address, subject and body). -/
def send_gmail (sendEmail : Bool) (gmailAddress gmailAppPassword : String)
    (subject body : String) : List Mark × Option (String × String × String) :=
  if !sendEmail then
    ([Mark.warn "通知(メール)" "SEND_EMAIL=false のため送信スキップ"], none)
  else if gmailAddress == "" || gmailAppPassword == "" then
    ([Mark.fail "通知(メール)" "GMAIL_ADDRESS/GMAIL_APP_PASSWORD 未設定"], none)
  else
    ([Mark.pass "通知(メール)" "SMTP送信成功"], some (gmailAddress, subject, body))

/-- An environment with the site credentials set and notification
enabled, but no email credentials. -/
def envNotifyNoCreds : String → Option String := fun n =>
  if n == "IPA_USER_ID" then some "user" else
  if n == "IPA_PASSWORD" then some "pw" else
  if n == "SEND_EMAIL" then some "true" else none

/-- Counterexample to C9 as stated: with notification enabled
(`SEND_EMAIL=true`) and both email credentials absent, main.py's startup
succeeds — there is no fatal startup error naming the missing email
variable as the claim requires; the absence only surfaces later as a
non-fatal FAIL inside `send_gmail`. -/
theorem config_preconditions_counterexample :
    truthy envNotifyNoCreds "SEND_EMAIL" = true
    ∧ envNotifyNoCreds "GMAIL_ADDRESS" = none
    ∧ envNotifyNoCreds "GMAIL_APP_PASSWORD" = none
    ∧ isOkE (mainStartup envNotifyNoCreds) = true
    ∧ send_gmail true "" "" "件名" "本文" =
        ([Mark.fail "通知(メール)" "GMAIL_ADDRESS/GMAIL_APP_PASSWORD 未設定"], none) := by
  refine ⟨by decide, rfl, rfl, by decide, rfl⟩

/-- C9 (amended): configuration preconditions.  A missing required value
is a fatal startup error whose message names the variable (`need`); the
two site-login credentials are always required — main.py / watch.py
startup survives exactly when both are non-empty.  The email credentials
are never required at main.py / watch.py startup, whatever the
notification toggle: when notification is enabled and a credential is
missing, the send step reports a non-fatal FAIL and skips sending.  In
seat_watcher_ipa.py the email credentials are instead required
unconditionally at startup. -/
theorem config_preconditions_amended (env : String → Option String)
    (name gp subject body : String) :
    need env name =
      (if envGet env name "" == "" then
        Except.error ("環境変数 " ++ name ++ " が未設定です")
       else Except.ok (envGet env name ""))
    ∧ isOkE (mainStartup env) =
        (envGet env "IPA_USER_ID" "" != "" && envGet env "IPA_PASSWORD" "" != "")
    ∧ isOkE (ipaStartup env) =
        (envGet env "IPA_USER_ID" "" != "" && envGet env "IPA_PASSWORD" "" != ""
          && envGet env "GMAIL_ADDRESS" "" != "" && envGet env "GMAIL_APP_PASSWORD" "" != "")
    ∧ send_gmail true "" gp subject body =
        ([Mark.fail "通知(メール)" "GMAIL_ADDRESS/GMAIL_APP_PASSWORD 未設定"], none) := by
  refine ⟨rfl, ?_, ?_, rfl⟩
  · unfold mainStartup need isOkE
    by_cases h1 : envGet env "IPA_USER_ID" "" = "" <;>
      by_cases h2 : envGet env "IPA_PASSWORD" "" = "" <;>
        simp [h1, h2, Bind.bind, Except.bind, beq_iff_eq]
  · unfold ipaStartup need isOkE
    by_cases h1 : envGet env "IPA_USER_ID" "" = "" <;>
      by_cases h2 : envGet env "IPA_PASSWORD" "" = "" <;>
        by_cases h3 : envGet env "GMAIL_ADDRESS" "" = "" <;>
          by_cases h4 : envGet env "GMAIL_APP_PASSWORD" "" = "" <;>
            simp [h1, h2, h3, h4, Bind.bind, Except.bind, beq_iff_eq]

end FEWatcher
